import Mathlib

/-!
# Verification of the flickxir order/commission/settlement core

Shallow embedding of the order-placement pipeline, the order status state
machine and the payment-settlement handlers of the repository:

* `src/src/market/utils/helpers.ts` (commission calculator, status-transition
  table helper),
* `src/src/common/constants.ts` (`ORDER_STATUS_FLOW`, `COMMISSION_RATES`),
* `src/src/market/controllers/orderController.ts` (`createOrder`,
  `updateOrderStatus`, `cancelOrder`),
* `src/src/market/services/paymentService.ts` (`verifyPaymentSignature`,
  `processPaymentSuccess`, `processPaymentFailure`, `handleWebhook`).

Monetary amounts (`DOUBLE PRECISION` columns, JS numbers) are modelled as
exact rationals `ℚ`; quantities (`INTEGER`, zod `int().min(1)`) as `ℕ`.
The database is a record of lists mirroring the tables of the Prisma schema
(migration `20251025033839_init`): `bookings`, `pharmacy_bookings`,
`payments`, `products`.  The same migration drops the `market_bookings`
table, yet `paymentService.ts` still issues
`prisma.marketBooking.updateMany`; we keep a vestigial `marketBookings`
table so that this call can be modelled faithfully: it touches no
`pharmacyBookings` row (which is also what happens on the real schema,
where there is no `marketBooking` model for the call to hit).

Each controller method is a pure function from its inputs and the database
to a result record carrying the HTTP-level outcome, the new database and
the externally visible effects (refund calls issued).  Best-effort side
channels that no claim observes (notification dispatch) are not modelled.
-/

namespace Flickxir

/-- `BookingStatus` Prisma enum (migration / `validators.ts`). -/
inductive BookingStatus where
  | DRAFT
  | PENDING
  | CONFIRMED
  | CANCELLED
  | COMPLETED
deriving DecidableEq, Repr

/-- `VendorType` Prisma enum.  The migration's final value set is the six
pharmacy-era values; `helpers.ts` additionally references
`VendorType.LOCAL_MARKET`, the pre-migration value, so the type carries it
as well. -/
inductive VendorType where
  | PHARMACY
  | MEDICAL_STORE
  | HOSPITAL_PHARMACY
  | ONLINE_PHARMACY
  | WELLNESS_STORE
  | LOCAL_MARKET
  | OTHER
deriving DecidableEq, Repr

/-- Vendor approval status (`validators.ts` `vendorSearchSchema`). -/
inductive VendorStatus where
  | PENDING
  | APPROVED
  | REJECTED
  | SUSPENDED
deriving DecidableEq, Repr

/-- Payment status values used by `paymentService.ts` / `orderController.ts`. -/
inductive PaymentStatus where
  | PENDING
  | SUCCESS
  | FAILED
  | REFUNDED
deriving DecidableEq, Repr

/-- `COMMISSION_RATES` from `src/src/common/constants.ts`. -/
def COMMISSION_RATES.LOCAL_MARKET : ℚ := 10

/-- `COMMISSION_RATES.DEFAULT` from `src/src/common/constants.ts`. -/
def COMMISSION_RATES.DEFAULT : ℚ := 16

/-- `calculateCommission` from `src/src/market/utils/helpers.ts`. -/
def calculateCommission (amount : ℚ) (vendorType : VendorType) : ℚ :=
  let rate :=
    if vendorType = VendorType.LOCAL_MARKET then COMMISSION_RATES.LOCAL_MARKET
    else COMMISSION_RATES.DEFAULT
  amount * rate / 100

/-- `calculateVendorAmount` from `src/src/market/utils/helpers.ts`. -/
def calculateVendorAmount (totalAmount commissionAmount : ℚ) : ℚ :=
  totalAmount - commissionAmount

/-- `ORDER_STATUS_FLOW` from `src/src/common/constants.ts`. -/
def ORDER_STATUS_FLOW : BookingStatus → List BookingStatus
  | .DRAFT => [.PENDING, .CANCELLED]
  | .PENDING => [.CONFIRMED, .CANCELLED]
  | .CONFIRMED => [.COMPLETED, .CANCELLED]
  | .CANCELLED => []
  | .COMPLETED => []

/-- `isValidOrderStatusTransition` from `src/src/market/utils/helpers.ts`. -/
def isValidOrderStatusTransition (currentStatus newStatus : BookingStatus) : Bool :=
  (ORDER_STATUS_FLOW currentStatus).contains newStatus

/-- The vendor fields selected by `createOrder`'s product query
(`select: id, status, vendorType, commissionRate`). -/
structure VendorInfo where
  id : String
  status : VendorStatus
  vendorType : VendorType
  commissionRate : ℚ
deriving DecidableEq, Repr

/-- A `products` row together with its joined `pharmacyProfile.vendor`
(the shape returned by the `findMany` in `createOrder`). -/
structure Product where
  id : String
  medicineName : String
  isAvailable : Bool
  priceMin : ℚ
  priceMax : ℚ
  minOrderQuantity : ℕ
  pharmacyProfileId : String
  vendor : VendorInfo
deriving DecidableEq, Repr

/-- A `bookings` row (the Order aggregate root). -/
structure Booking where
  id : String
  userId : String
  vendorId : String
  bookingType : String
  totalAmount : ℚ
  commissionAmount : ℚ
  status : BookingStatus
deriving DecidableEq, Repr

/-- A `pharmacy_bookings` row (one order line). -/
structure PharmacyBooking where
  bookingId : String
  pharmacyProfileId : String
  productId : String
  quantity : ℕ
  unitPrice : ℚ
  totalAmount : ℚ
  requiresDelivery : Bool
  deliveryAddress : Option String
  status : BookingStatus
deriving DecidableEq, Repr

/-- A `payments` row. -/
structure Payment where
  id : String
  bookingId : String
  vendorId : String
  totalAmount : ℚ
  commissionAmount : ℚ
  vendorAmount : ℚ
  paymentMethod : String
  paymentStatus : PaymentStatus
  razorpayOrderId : Option String
  razorpayPaymentId : Option String
  razorpaySignature : Option String
  refundId : Option String
  refundAmount : Option ℚ
deriving DecidableEq, Repr

/-- The database state: the tables of the Prisma schema touched by the
order/payment core, plus the vestigial `marketBookings` table that
`paymentService.ts` still addresses (see the file header). -/
structure Db where
  products : List Product
  bookings : List Booking
  pharmacyBookings : List PharmacyBooking
  marketBookings : List PharmacyBooking
  payments : List Payment
deriving DecidableEq, Repr

/-- The authenticated principal (`AuthenticatedUser` in `common/types.ts`). -/
structure AuthUser where
  role : String
  userId : String
  vendorId : Option String
  phoneNumber : String
deriving DecidableEq, Repr

/-- One item of a `POST /orders` body (`orderItemSchema` in `validators.ts`). -/
structure OrderItem where
  productId : String
  quantity : ℕ
  unitPrice : ℚ
  requiresDelivery : Bool
  deliveryAddress : Option String
deriving DecidableEq, Repr

/-- A `POST /orders` body (`createOrderSchema` in `validators.ts`). -/
structure CreateOrderRequest where
  items : List OrderItem
  totalAmount : ℚ
  paymentMethod : Option String
deriving DecidableEq, Repr

/-- The distinct error responses returned by the order controller, one
constructor per `createErrorResponse(...)` call site relevant to the
order/cancel/status flows. -/
inductive ApiError where
  | forbidden
  | validationError
  | productsNotAvailable
  | multipleVendors
  | invalidVendorData
  | vendorNotApproved
  | minOrderQuantity (medicineName : String) (minQty : ℕ)
  | invalidPrice (medicineName : String) (priceMin priceMax : ℚ)
  | totalAmountMismatch
  | orderNotFound
  | cannotUpdateTerminal
  | cannotCancelCompleted
  | alreadyCancelled
deriving DecidableEq, Repr

/-- The items of `validatedItems` accumulated by `createOrder`. -/
structure ValidatedItem where
  productId : String
  quantity : ℕ
  unitPrice : ℚ
  totalAmount : ℚ
  requiresDelivery : Bool
  deliveryAddress : Option String
deriving DecidableEq, Repr

/-- The 201 payload of `createOrder` (the fields the claims observe). -/
structure OrderResponse where
  orderId : String
  totalAmount : ℚ
  commissionAmount : ℚ
  status : BookingStatus
  paymentStatus : PaymentStatus
  paymentMethod : String
  razorpayOrderId : Option String
deriving DecidableEq, Repr

/-- A call to `paymentService.initiateRefund(paymentId, amount, reason)`
as issued by `cancelOrder` (the externally visible refund effect). -/
structure RefundCall where
  paymentId : String
  amount : ℚ
  reason : String
deriving DecidableEq, Repr

/-- Numeric constraints of `orderItemSchema`: `quantity` int ≥ 1,
`unitPrice` ≥ 0.01. -/
def orderItemSchemaValid (i : OrderItem) : Bool :=
  1 ≤ i.quantity && (1 / 100 : ℚ) ≤ i.unitPrice

/-- Numeric constraints of `createOrderSchema`: at least one item, each item
well-formed, `totalAmount` ≥ 0.01.  (Purely shape-level string constraints
such as cuid format and address length are outside the modelled core.) -/
def createOrderSchemaValid (r : CreateOrderRequest) : Bool :=
  !r.items.isEmpty && r.items.all orderItemSchemaValid
    && (1 / 100 : ℚ) ≤ r.totalAmount

/-- The product query of `createOrder`:
`prisma.product.findMany({ where: { id: { in: productIds }, isAvailable: true } })`. -/
def findAvailableProducts (db : Db) (productIds : List String) : List Product :=
  db.products.filter (fun p => productIds.contains p.id && p.isAvailable)

/-- The per-item validation loop of `createOrder` (lines 124-164): first
offending item aborts with its error; otherwise the validated items and the
accumulated `calculatedTotal` are returned.  An item whose product is not
found is skipped (`if (!product) continue`). -/
def validateItems (products : List Product) :
    List OrderItem → Except ApiError (List ValidatedItem × ℚ)
  | [] => .ok ([], 0)
  | item :: rest =>
    match products.find? (fun p => p.id == item.productId) with
    | none => validateItems products rest
    | some product =>
      if item.quantity < product.minOrderQuantity then
        .error (.minOrderQuantity product.medicineName product.minOrderQuantity)
      else if item.unitPrice < product.priceMin || item.unitPrice > product.priceMax then
        .error (.invalidPrice product.medicineName product.priceMin product.priceMax)
      else
        match validateItems products rest with
        | .error e => .error e
        | .ok (vs, total) =>
          let itemTotal := item.unitPrice * (item.quantity : ℚ)
          .ok ({ productId := item.productId
                 quantity := item.quantity
                 unitPrice := item.unitPrice
                 totalAmount := itemTotal
                 requiresDelivery := item.requiresDelivery
                 deliveryAddress := item.deliveryAddress } :: vs,
               itemTotal + total)

/-- The order line written for one validated item inside the transaction
(`tx.pharmacyBooking.create`). -/
def mkPharmacyBooking (products : List Product) (bookingId : String)
    (item : ValidatedItem) : PharmacyBooking :=
  { bookingId := bookingId
    pharmacyProfileId :=
      ((products.find? (fun p => p.id == item.productId)).map
        (fun p => p.pharmacyProfileId)).getD ""
    productId := item.productId
    quantity := item.quantity
    unitPrice := item.unitPrice
    totalAmount := item.totalAmount
    requiresDelivery := item.requiresDelivery
    deliveryAddress := item.deliveryAddress
    status := .PENDING }

instance {ε α : Type} [DecidableEq ε] [DecidableEq α] : DecidableEq (Except ε α) :=
fun x y =>
  match x, y with
  | .ok a, .ok b =>
    if h : a = b then .isTrue (by rw [h])
    else .isFalse (fun hc => h (Except.ok.inj hc))
  | .error a, .error b =>
    if h : a = b then .isTrue (by rw [h])
    else .isFalse (fun hc => h (Except.error.inj hc))
  | .ok _, .error _ => .isFalse (fun hc => Except.noConfusion hc)
  | .error _, .ok _ => .isFalse (fun hc => Except.noConfusion hc)

/-- Result of `OrderController.createOrder`: the response and the database
after the call. -/
structure CreateOrderResult where
  response : Except ApiError OrderResponse
  db : Db
deriving DecidableEq, Repr

/-- `prisma.payment.update({ where: { bookingId }, ... })` restricted to the
`razorpayOrderId` field. -/
def setPaymentGatewayId (db : Db) (bookingId rid : String) : Db :=
  { db with
    payments := db.payments.map (fun p =>
      if p.bookingId == bookingId then { p with razorpayOrderId := some rid } else p) }

/-- The Booking row inserted by `createOrder`'s transaction. -/
def mkBooking (user : AuthUser) (newBookingId vendorId : String)
    (calculatedTotal commissionAmount : ℚ) : Booking :=
  { id := newBookingId
    userId := user.userId
    vendorId := vendorId
    bookingType := "PHARMACY"
    totalAmount := calculatedTotal
    commissionAmount := commissionAmount
    status := .PENDING }

/-- The Payment row inserted by `createOrder`'s transaction. -/
def mkPayment (req : CreateOrderRequest) (newPaymentId newBookingId vendorId : String)
    (calculatedTotal commissionAmount vendorAmount : ℚ) : Payment :=
  { id := newPaymentId
    bookingId := newBookingId
    vendorId := vendorId
    totalAmount := calculatedTotal
    commissionAmount := commissionAmount
    vendorAmount := vendorAmount
    paymentMethod := req.paymentMethod.getD "RAZORPAY"
    paymentStatus := .PENDING
    razorpayOrderId := none
    razorpayPaymentId := none
    razorpaySignature := none
    refundId := none
    refundAmount := none }

/-- The tail of `createOrder` once every validation has passed: the
commission computation, the transactional insert of Booking + order lines +
Payment, the best-effort gateway call, and the 201 response
(`orderController.ts`, lines 173-287). -/
def createOrderSuccess (user : AuthUser) (req : CreateOrderRequest)
    (newBookingId newPaymentId : String) (gatewayResult : Option String)
    (db : Db) (vendor : VendorInfo) (products : List Product)
    (validatedItems : List ValidatedItem) (calculatedTotal : ℚ) :
    CreateOrderResult :=
  let commissionAmount := calculateCommission calculatedTotal vendor.vendorType
  let vendorAmount := calculateVendorAmount calculatedTotal commissionAmount
  let booking := mkBooking user newBookingId vendor.id calculatedTotal commissionAmount
  let newLines := validatedItems.map (mkPharmacyBooking products newBookingId)
  let payment := mkPayment req newPaymentId newBookingId vendor.id
    calculatedTotal commissionAmount vendorAmount
  let db1 : Db :=
    { db with
      bookings := db.bookings ++ [booking]
      pharmacyBookings := db.pharmacyBookings ++ newLines
      payments := db.payments ++ [payment] }
  let tryGateway := req.paymentMethod = some "RAZORPAY" ∨ req.paymentMethod = none
  let razorpayOrderId := if tryGateway then gatewayResult else none
  let db2 :=
    match razorpayOrderId with
    | some rid => setPaymentGatewayId db1 newBookingId rid
    | none => db1
  ⟨.ok
    { orderId := newBookingId
      totalAmount := calculatedTotal
      commissionAmount := commissionAmount
      status := booking.status
      paymentStatus := payment.paymentStatus
      paymentMethod := payment.paymentMethod
      razorpayOrderId := razorpayOrderId },
   db2⟩

/-- `OrderController.createOrder` (`orderController.ts`, lines 35-292).

Inputs beyond the request: `newBookingId`/`newPaymentId` are the row ids the
database assigns inside the transaction, and `gatewayResult` is the outcome
of the post-commit `paymentService.createOrder` gateway call
(`some id` = gateway order created, `none` = the call threw and was caught). -/
def createOrder (user : AuthUser) (req : CreateOrderRequest)
    (newBookingId newPaymentId : String) (gatewayResult : Option String)
    (db : Db) : CreateOrderResult :=
  if user.role ≠ "CUSTOMER" then ⟨.error .forbidden, db⟩
  else if ¬ createOrderSchemaValid req then ⟨.error .validationError, db⟩
  else
    let productIds := req.items.map (fun i => i.productId)
    let products := findAvailableProducts db productIds
    if products.length ≠ productIds.length then ⟨.error .productsNotAvailable, db⟩
    else
      let vendorIds := (products.map (fun p => p.vendor.id)).dedup
      if 1 < vendorIds.length then ⟨.error .multipleVendors, db⟩
      else
        match products.head? with
        | none => ⟨.error .invalidVendorData, db⟩
        | some p0 =>
          if p0.vendor.status ≠ .APPROVED then ⟨.error .vendorNotApproved, db⟩
          else
            match validateItems products req.items with
            | .error e => ⟨.error e, db⟩
            | .ok (validatedItems, calculatedTotal) =>
              if |calculatedTotal - req.totalAmount| > 1 / 100 then
                ⟨.error .totalAmountMismatch, db⟩
              else
                createOrderSuccess user req newBookingId newPaymentId
                  gatewayResult db p0.vendor products validatedItems calculatedTotal

/-- The status values accepted by `updateOrderStatusSchema`
(`z.enum(["CONFIRMED", "CANCELLED", "COMPLETED"])`). -/
def updateOrderStatusSchemaValid (s : BookingStatus) : Bool :=
  s == .CONFIRMED || s == .CANCELLED || s == .COMPLETED

/-- Result of `updateOrderStatus` / `cancelOrder`: the response (order id and
new status on success) and the database after the call; `cancelOrder`
additionally reports the refund calls it issued. -/
structure StatusResult where
  response : Except ApiError (String × BookingStatus)
  db : Db
deriving DecidableEq, Repr

/-- The transactional write of `updateOrderStatus`: set the booking's status
and the status of every `pharmacyBooking` line with this `bookingId`
(`tx.booking.update` + `tx.pharmacyBooking.updateMany`). -/
def applyStatus (db : Db) (orderId : String) (newStatus : BookingStatus) : Db :=
  { db with
    bookings := db.bookings.map (fun b =>
      if b.id == orderId then { b with status := newStatus } else b)
    pharmacyBookings := db.pharmacyBookings.map (fun l =>
      if l.bookingId == orderId then { l with status := newStatus } else l) }

/-- `OrderController.updateOrderStatus` (`orderController.ts`, lines 598-704).
Note: the only status validation performed is the terminal-state check at
lines 647-654 (the code comments it "simplified"); the
`isValidOrderStatusTransition` helper is never consulted. -/
def updateOrderStatus (user : AuthUser) (orderId : String)
    (newStatus : BookingStatus) (db : Db) : StatusResult :=
  if user.role ≠ "VENDOR" ∨ user.vendorId = none then ⟨.error .forbidden, db⟩
  else if ¬ updateOrderStatusSchemaValid newStatus then ⟨.error .validationError, db⟩
  else
    match db.bookings.find? (fun b =>
        b.id == orderId && user.vendorId == some b.vendorId) with
    | none => ⟨.error .orderNotFound, db⟩
    | some order =>
      if order.status = .COMPLETED ∨ order.status = .CANCELLED then
        ⟨.error .cannotUpdateTerminal, db⟩
      else
        ⟨.ok (orderId, newStatus), applyStatus db orderId newStatus⟩

/-- Result of `cancelOrder`: response, database, and the refund calls issued
through `paymentService.initiateRefund`. -/
structure CancelResult where
  response : Except ApiError (String × BookingStatus)
  db : Db
  refunds : List RefundCall
deriving DecidableEq, Repr

/-- `OrderController.cancelOrder` (`orderController.ts`, lines 710-798).
The refund is issued from the payment included with the pre-update read of
the order; the call is fire-and-forget (wrapped in try/catch), so only the
issued call is observable here. -/
def cancelOrder (user : AuthUser) (orderId : String) (db : Db) : CancelResult :=
  if user.role ≠ "CUSTOMER" then ⟨.error .forbidden, db, []⟩
  else
    match db.bookings.find? (fun b =>
        b.id == orderId && b.userId == user.userId) with
    | none => ⟨.error .orderNotFound, db, []⟩
    | some order =>
      if order.status = .COMPLETED then ⟨.error .cannotCancelCompleted, db, []⟩
      else if order.status = .CANCELLED then ⟨.error .alreadyCancelled, db, []⟩
      else
        let db1 := applyStatus db orderId .CANCELLED
        let refunds :=
          match db.payments.find? (fun p => p.bookingId == order.id) with
          | some payment =>
            if payment.paymentStatus = .SUCCESS then
              [{ paymentId := payment.id
                 amount := payment.totalAmount
                 reason := "Customer cancellation" }]
            else []
          | none => []
        ⟨.ok (orderId, .CANCELLED), db1, refunds⟩

/-! ## Payment service (`src/src/market/services/paymentService.ts`) -/

/-- Hex digit for a value below 16, lowercase, as `digest("hex")` prints. -/
def hexDigit (n : ℕ) : Char :=
  if n < 10 then Char.ofNat (48 + n) else Char.ofNat (87 + n)

/-- 64 hex characters of a value below `2 ^ 256`, least significant first. -/
def hex64 (n : ℕ) : List Char :=
  (List.range 64).map (fun i => hexDigit (n / 16 ^ i % 16))

/-- One step of the modelled keyed digest. -/
def hmacStep (h : ℕ) (c : Char) : ℕ := (h * 131 + c.toNat) % 2 ^ 256

/-- Modelled from the spec: the external crypto library call
`crypto.createHmac("sha256", key).update(msg).digest("hex")` (a keyed
message-authentication digest).  The model keeps the properties the code
relies on: the digest is a key- and message-determined 64-character hex
string (in particular it is never the empty string). -/
def hmacHex (key msg : String) : String :=
  String.mk (hex64 ((key ++ "|" ++ msg).data.foldl hmacStep 7))

/-- The body of `paymentVerificationSchema` requests. -/
structure PaymentVerificationData where
  razorpay_payment_id : String
  razorpay_order_id : String
  razorpay_signature : String
deriving DecidableEq, Repr

/-- `PaymentService.verifyPaymentSignature`: keyed digest over
`order_id|payment_id` compared with the supplied signature. -/
def verifyPaymentSignature (keySecret : String) (d : PaymentVerificationData) : Bool :=
  hmacHex keySecret (d.razorpay_order_id ++ "|" ++ d.razorpay_payment_id)
    == d.razorpay_signature

/-- Outcome of a payment-service step: `error = some msg` models a thrown
(and possibly later caught) exception; `db` is the state after whatever
writes completed before the throw (the three updates are separate
`await`s, not one transaction). -/
structure StepResult where
  error : Option String
  db : Db
deriving DecidableEq, Repr

/-- `prisma.payment.update({ where: { bookingId }, data })`: throws `P2025`
when no row matches the unique `bookingId`. -/
def prismaUpdatePayment (db : Db) (bookingId : String) (f : Payment → Payment) :
    Option Db :=
  if db.payments.any (fun p => p.bookingId == bookingId) then
    some { db with
           payments := db.payments.map (fun p =>
             if p.bookingId == bookingId then f p else p) }
  else none

/-- `prisma.booking.update({ where: { id }, data })`: throws when no row
matches. -/
def prismaUpdateBooking (db : Db) (bookingId : String) (f : Booking → Booking) :
    Option Db :=
  if db.bookings.any (fun b => b.id == bookingId) then
    some { db with
           bookings := db.bookings.map (fun b =>
             if b.id == bookingId then f b else b) }
  else none

/-- `prisma.marketBooking.updateMany({ where: { bookingId }, data: { status } })`
as issued by the settlement handlers.  The `marketBooking` model was dropped
by migration `20251025033839_init`; the call touches no `pharmacyBookings`
row.  We model it on the vestigial `marketBookings` table (see file header). -/
def marketBookingUpdateStatus (db : Db) (bookingId : String)
    (newStatus : BookingStatus) : Db :=
  { db with
    marketBookings := db.marketBookings.map (fun l =>
      if l.bookingId == bookingId then { l with status := newStatus } else l) }

/-- `PaymentService.processPaymentSuccess` (`paymentService.ts`, lines 84-122):
verify the signature, then mark the Payment SUCCESS, the Booking CONFIRMED,
and issue the `marketBooking` status update. -/
def processPaymentSuccess (keySecret bookingId : String)
    (d : PaymentVerificationData) (db : Db) : StepResult :=
  if ¬ verifyPaymentSignature keySecret d then
    ⟨some "Invalid payment signature", db⟩
  else
    match prismaUpdatePayment db bookingId (fun p =>
        { p with
          paymentStatus := .SUCCESS
          razorpayPaymentId := some d.razorpay_payment_id
          razorpaySignature := some d.razorpay_signature }) with
    | none => ⟨some "Record to update not found", db⟩
    | some db1 =>
      match prismaUpdateBooking db1 bookingId (fun b =>
          { b with status := .CONFIRMED }) with
      | none => ⟨some "Record to update not found", db1⟩
      | some db2 => ⟨none, marketBookingUpdateStatus db2 bookingId .CONFIRMED⟩

/-- `PaymentService.processPaymentFailure` (`paymentService.ts`, lines
128-161): mark the Payment FAILED, the Booking CANCELLED, and issue the
`marketBooking` status update.  No status precondition is checked. -/
def processPaymentFailure (bookingId : String) (db : Db) : StepResult :=
  match prismaUpdatePayment db bookingId (fun p =>
      { p with paymentStatus := .FAILED }) with
  | none => ⟨some "Record to update not found", db⟩
  | some db1 =>
    match prismaUpdateBooking db1 bookingId (fun b =>
        { b with status := .CANCELLED }) with
    | none => ⟨some "Record to update not found", db1⟩
    | some db2 => ⟨none, marketBookingUpdateStatus db2 bookingId .CANCELLED⟩

/-- The `notes` object of a gateway payment entity (only `orderId` is read
by the handlers). -/
structure PaymentEntityNotes where
  orderId : Option String
deriving DecidableEq, Repr

/-- A gateway payment entity as delivered in a webhook payload. -/
structure PaymentEntity where
  id : String
  order_id : String
  notes : PaymentEntityNotes
  error_description : Option String
deriving DecidableEq, Repr

/-- A gateway refund entity as delivered in a webhook payload. -/
structure RefundEntity where
  id : String
deriving DecidableEq, Repr

/-- A webhook payload: `payload.event`, `payload.payload.payment.entity` and
`payload.payload.refund.entity`. -/
structure WebhookPayload where
  event : String
  payment : PaymentEntity
  refund : RefundEntity
deriving DecidableEq, Repr

/-- Modelled from the spec: the raw-payload serialization
(`JSON.stringify(payload)`) over which the webhook digest is computed.  The
properties proved here only require it to be a deterministic rendering of
the payload, so the fields are joined with separators. -/
def stringifyPayload (p : WebhookPayload) : String :=
  p.event ++ "|" ++ p.payment.id ++ "|" ++ p.payment.order_id ++ "|"
    ++ (p.payment.notes.orderId.getD "") ++ "|"
    ++ (p.payment.error_description.getD "") ++ "|" ++ p.refund.id

/-- `PaymentService.handlePaymentCaptured` (`paymentService.ts`, lines
322-349): look up the booking named in the notes and call
`processPaymentSuccess` with an **empty** `razorpay_signature` (the code
comments "Signature verification not needed for webhooks").  Every error is
caught and logged, so the handler itself never fails. -/
def handlePaymentCaptured (keySecret : String) (e : PaymentEntity) (db : Db) :
    StepResult :=
  match e.notes.orderId with
  | none => ⟨none, db⟩
  | some orderId =>
    match db.bookings.find? (fun b => b.id == orderId) with
    | none => ⟨none, db⟩
    | some booking =>
      let r := processPaymentSuccess keySecret booking.id
        { razorpay_payment_id := e.id
          razorpay_order_id := e.order_id
          razorpay_signature := "" } db
      ⟨none, r.db⟩

/-- `PaymentService.handlePaymentFailed` (`paymentService.ts`, lines
351-376): look up the booking named in the notes and call
`processPaymentFailure`.  Every error is caught and logged. -/
def handlePaymentFailed (e : PaymentEntity) (db : Db) : StepResult :=
  match e.notes.orderId with
  | none => ⟨none, db⟩
  | some orderId =>
    match db.bookings.find? (fun b => b.id == orderId) with
    | none => ⟨none, db⟩
    | some booking =>
      let r := processPaymentFailure booking.id db
      ⟨none, r.db⟩

/-- `PaymentService.handleRefundProcessed` (`paymentService.ts`, lines
378-393): mark every payment carrying this refund id REFUNDED. -/
def handleRefundProcessed (r : RefundEntity) (db : Db) : StepResult :=
  ⟨none,
   { db with
     payments := db.payments.map (fun p =>
       if p.refundId == some r.id then { p with paymentStatus := .REFUNDED } else p) }⟩

/-- `PaymentService.handleWebhook` (`paymentService.ts`, lines 284-320):
re-derive the keyed digest over the raw payload, reject mismatches, then
dispatch on the event type. -/
def handleWebhook (webhookSecret keySecret signature : String)
    (payload : WebhookPayload) (db : Db) : StepResult :=
  let expectedSignature := hmacHex webhookSecret (stringifyPayload payload)
  if signature ≠ expectedSignature then ⟨some "Invalid webhook signature", db⟩
  else if payload.event == "payment.captured" then
    handlePaymentCaptured keySecret payload.payment db
  else if payload.event == "payment.failed" then
    handlePaymentFailed payload.payment db
  else if payload.event == "refund.processed" then
    handleRefundProcessed payload.refund db
  else ⟨none, db⟩

/-! ## General lemmas about the embedding -/

theorem hex64_length (n : ℕ) : (hex64 n).length = 64 := by
  simp [hex64]

theorem hmacHex_ne_empty (key msg : String) : hmacHex key msg ≠ "" := by
  intro h
  have h2 := congrArg (fun s => s.data.length) h
  simp only [hmacHex] at h2
  simp [hex64_length] at h2

/-- Every rejecting branch of `createOrder` leaves the database untouched. -/
theorem createOrder_error_db (user : AuthUser) (req : CreateOrderRequest)
    (nb np : String) (gw : Option String) (db : Db) :
    (∃ e, (createOrder user req nb np gw db).response = .error e) →
    (createOrder user req nb np gw db).db = db := by
  simp only [createOrder]
  split
  · exact fun _ => rfl
  split
  · exact fun _ => rfl
  split
  · exact fun _ => rfl
  split
  · exact fun _ => rfl
  split
  · exact fun _ => rfl
  split
  · exact fun _ => rfl
  split
  · exact fun _ => rfl
  split
  · exact fun _ => rfl
  rintro ⟨e, he⟩
  simp [createOrderSuccess] at he

/-- Inversion of a successful `createOrder`: every validation passed and the
result is the factored success tail. -/
theorem createOrder_ok_inv (user : AuthUser) (req : CreateOrderRequest)
    (nb np : String) (gw : Option String) (db : Db) (resp : OrderResponse)
    (h : (createOrder user req nb np gw db).response = .ok resp) :
    user.role = "CUSTOMER" ∧ createOrderSchemaValid req = true ∧
    ∃ p0 vi ct,
      (findAvailableProducts db (req.items.map (fun i => i.productId))).head? = some p0 ∧
      (findAvailableProducts db (req.items.map (fun i => i.productId))).length
        = (req.items.map (fun i => i.productId)).length ∧
      ¬ 1 < ((findAvailableProducts db (req.items.map (fun i => i.productId))).map
          (fun p => p.vendor.id)).dedup.length ∧
      p0.vendor.status = .APPROVED ∧
      validateItems (findAvailableProducts db (req.items.map (fun i => i.productId)))
        req.items = .ok (vi, ct) ∧
      ¬ |ct - req.totalAmount| > 1 / 100 ∧
      createOrder user req nb np gw db
        = createOrderSuccess user req nb np gw db p0.vendor
            (findAvailableProducts db (req.items.map (fun i => i.productId))) vi ct := by
  revert h
  simp only [createOrder]
  split
  · intro h; exact absurd h (by simp)
  split
  · intro h; exact absurd h (by simp)
  split
  · intro h; exact absurd h (by simp)
  split
  · intro h; exact absurd h (by simp)
  split
  · intro h; exact absurd h (by simp)
  next p0 hp0 =>
    split
    · intro h; exact absurd h (by simp)
    split
    · intro h; exact absurd h (by simp)
    next vi ct hvi =>
      split
      · intro h; exact absurd h (by simp)
      intro _
      refine ⟨by tauto, by tauto, p0, vi, ct, hp0, by tauto, by tauto, by tauto, hvi, by tauto, rfl⟩

/-- The 201 response returned by the success tail of `createOrder`. -/
theorem createOrderSuccess_response (user : AuthUser) (req : CreateOrderRequest)
    (nb np : String) (gw : Option String) (db : Db) (vendor : VendorInfo)
    (products : List Product) (vi : List ValidatedItem) (ct : ℚ) :
    (createOrderSuccess user req nb np gw db vendor products vi ct).response
      = .ok
        { orderId := nb
          totalAmount := ct
          commissionAmount := calculateCommission ct vendor.vendorType
          status := .PENDING
          paymentStatus := .PENDING
          paymentMethod := req.paymentMethod.getD "RAZORPAY"
          razorpayOrderId :=
            if req.paymentMethod = some "RAZORPAY" ∨ req.paymentMethod = none
            then gw else none } := rfl

/-- The Payment row written by the success tail of `createOrder`. -/
theorem createOrderSuccess_payment (user : AuthUser) (req : CreateOrderRequest)
    (nb np : String) (gw : Option String) (db : Db) (vendor : VendorInfo)
    (products : List Product) (vi : List ValidatedItem) (ct : ℚ) :
    ∃ pay ∈ (createOrderSuccess user req nb np gw db vendor products vi ct).db.payments,
      pay.bookingId = nb ∧ pay.totalAmount = ct ∧
      pay.commissionAmount = calculateCommission ct vendor.vendorType ∧
      pay.vendorAmount = ct - calculateCommission ct vendor.vendorType := by
  simp only [createOrderSuccess, setPaymentGatewayId, calculateVendorAmount]
  split
  · refine ⟨_,
      List.mem_map_of_mem _ (List.mem_append_right _ (List.mem_singleton_self _)), ?_⟩
    simp [mkPayment]
  · refine ⟨_, List.mem_append_right _ (List.mem_singleton_self _), ?_⟩
    simp [mkPayment]

/-! ## Concrete fixtures (used by the witnesses below) -/

/-- An APPROVED non-LOCAL_MARKET vendor. -/
def exVendor : VendorInfo :=
  { id := "V1", status := .APPROVED, vendorType := .PHARMACY, commissionRate := 16 }

/-- An available product of `exVendor` with price range [50, 150]. -/
def exProduct : Product :=
  { id := "P1", medicineName := "Aspirin", isAvailable := true, priceMin := 50,
    priceMax := 150, minOrderQuantity := 1, pharmacyProfileId := "PH1",
    vendor := exVendor }

/-- The customer principal. -/
def exCustomer : AuthUser :=
  { role := "CUSTOMER", userId := "U1", vendorId := none, phoneNumber := "9876543210" }

/-- The owning vendor's principal. -/
def exVendorUser : AuthUser :=
  { role := "VENDOR", userId := "UV", vendorId := some "V1", phoneNumber := "9876500000" }

/-- The single item `{quantity: 2, unitPrice: 100}` of the spec's end-to-end
example. -/
def exItem : OrderItem :=
  { productId := "P1", quantity := 2, unitPrice := 100, requiresDelivery := false,
    deliveryAddress := none }

/-- The spec's end-to-end example request: one item, declared total 200. -/
def exReq : CreateOrderRequest := { items := [exItem], totalAmount := 200, paymentMethod := none }

/-- A database holding just `exProduct`. -/
def exDb : Db :=
  { products := [exProduct], bookings := [], pharmacyBookings := [],
    marketBookings := [], payments := [] }

/-- The database after the example order has been placed (gateway call
failed, so no gateway id). -/
def exOrderDb : Db := (createOrder exCustomer exReq "B1" "PAY1" none exDb).db

/-- The example order's Booking row, in state PENDING. -/
def exPendingBooking : Booking :=
  { id := "B1", userId := "U1", vendorId := "V1", bookingType := "PHARMACY",
    totalAmount := 200, commissionAmount := 32, status := .PENDING }

/-- The example order's single line, in state PENDING. -/
def exLine : PharmacyBooking :=
  { bookingId := "B1", pharmacyProfileId := "PH1", productId := "P1", quantity := 2,
    unitPrice := 100, totalAmount := 200, requiresDelivery := false,
    deliveryAddress := none, status := .PENDING }

/-- The example order's Payment row, PENDING, with a gateway order id. -/
def exPayment : Payment :=
  { id := "PAY1", bookingId := "B1", vendorId := "V1", totalAmount := 200,
    commissionAmount := 32, vendorAmount := 168, paymentMethod := "RAZORPAY",
    paymentStatus := .PENDING, razorpayOrderId := some "rzp1",
    razorpayPaymentId := none, razorpaySignature := none, refundId := none,
    refundAmount := none }

/-- A database holding the example order in state PENDING. -/
def exPendingDb : Db :=
  { products := [exProduct], bookings := [exPendingBooking],
    pharmacyBookings := [exLine], marketBookings := [], payments := [exPayment] }

/-- The spec's second end-to-end example: same single item but declared
total 199. -/
def exReq199 : CreateOrderRequest := { exReq with totalAmount := 199 }

/-- A request whose unit price 10 lies below `exProduct`'s minimum 50. -/
def exBadPriceReq : CreateOrderRequest :=
  { items := [{ exItem with unitPrice := 10 }], totalAmount := 20,
    paymentMethod := none }

/-- A request listing the same product on two lines. -/
def exDupReq : CreateOrderRequest :=
  { items := [exItem, exItem], totalAmount := 400, paymentMethod := none }

/-- The validated form of `exItem` as accumulated by `createOrder`. -/
def exValidatedItem : ValidatedItem :=
  { productId := "P1", quantity := 2, unitPrice := 100, totalAmount := 200,
    requiresDelivery := false, deliveryAddress := none }

/-- The example order with its Payment already SUCCESS (order still
PENDING). -/
def exSuccessDb : Db :=
  { exPendingDb with payments := [{ exPayment with paymentStatus := .SUCCESS }] }

/-- The example order after completion: Booking and line COMPLETED, Payment
SUCCESS. -/
def exCompletedDb : Db :=
  { products := [exProduct]
    bookings := [{ exPendingBooking with status := .COMPLETED }]
    pharmacyBookings := [{ exLine with status := .COMPLETED }]
    marketBookings := []
    payments := [{ exPayment with paymentStatus := .SUCCESS }] }

/-- A `payment.failed` webhook event naming the example order. -/
def exFailedPayload : WebhookPayload :=
  { event := "payment.failed"
    payment :=
      { id := "pay_1", order_id := "rzp1", notes := { orderId := some "B1" },
        error_description := some "card declined" }
    refund := { id := "rf_0" } }

/-- A `payment.captured` webhook event naming the example order. -/
def exCapturedPayload : WebhookPayload :=
  { exFailedPayload with event := "payment.captured" }

/-! ## C1 — commission split on created orders -/

/-- C1: for every order created by `createOrder`, the commission is
`amount * rate / 100` with rate 10 for a LOCAL_MARKET vendor and 16 for
every other vendor type, the Payment's vendor amount is total minus
commission, commission + vendor amount equals the total exactly, and the
order is created in status PENDING. -/
theorem createOrder_commission_split (user : AuthUser) (req : CreateOrderRequest)
    (nb np : String) (gw : Option String) (db : Db) (resp : OrderResponse)
    (p0 : Product)
    (hok : (createOrder user req nb np gw db).response = .ok resp)
    (hp0 : (findAvailableProducts db (req.items.map (fun i => i.productId))).head?
      = some p0) :
    resp.status = .PENDING ∧
    resp.commissionAmount
      = resp.totalAmount * (if p0.vendor.vendorType = .LOCAL_MARKET then 10 else 16) / 100 ∧
    ∃ pay ∈ (createOrder user req nb np gw db).db.payments,
      pay.bookingId = nb ∧
      pay.totalAmount = resp.totalAmount ∧
      pay.commissionAmount = resp.commissionAmount ∧
      pay.vendorAmount = resp.totalAmount - resp.commissionAmount ∧
      pay.commissionAmount + pay.vendorAmount = pay.totalAmount := by
  obtain ⟨-, -, q0, vi, ct, hq0, -, -, -, -, -, heq⟩ :=
    createOrder_ok_inv user req nb np gw db resp hok
  have hpq : q0 = p0 := by rw [hq0] at hp0; exact Option.some.inj hp0
  subst hpq
  rw [heq] at hok
  rw [createOrderSuccess_response] at hok
  have hresp := (Except.ok.inj hok).symm
  obtain ⟨pay, hmem, hbid, htot, hcom, hven⟩ :=
    createOrderSuccess_payment user req nb np gw db q0.vendor
      (findAvailableProducts db (req.items.map (fun i => i.productId))) vi ct
  rw [heq]
  subst hresp
  refine ⟨rfl, ?_, pay, hmem, hbid, htot, hcom, ?_, ?_⟩
  · simp [calculateCommission, COMMISSION_RATES.LOCAL_MARKET, COMMISSION_RATES.DEFAULT]
  · simpa using hven
  · rw [htot, hcom, hven]; ring

/-- Witness for C1 at the spec's end-to-end example: items
`[{quantity: 2, unitPrice: 100}]`, declared total 200, APPROVED PHARMACY
vendor (16% rate) → response 200 / 32 / PENDING and Payment vendor
amount 168. -/
theorem createOrder_commission_split_witness :
    (createOrder exCustomer exReq "B1" "PAY1" (some "rzp1") exDb).response
      = .ok
        { orderId := "B1", totalAmount := 200, commissionAmount := 32,
          status := .PENDING, paymentStatus := .PENDING,
          paymentMethod := "RAZORPAY", razorpayOrderId := some "rzp1" } ∧
    ((createOrder exCustomer exReq "B1" "PAY1" (some "rzp1") exDb).response
        = .ok
          { orderId := "B1", totalAmount := 200, commissionAmount := 32,
            status := .PENDING, paymentStatus := .PENDING,
            paymentMethod := "RAZORPAY", razorpayOrderId := some "rzp1" } →
      OrderResponse.status
          { orderId := "B1", totalAmount := 200, commissionAmount := 32,
            status := .PENDING, paymentStatus := .PENDING,
            paymentMethod := "RAZORPAY", razorpayOrderId := some "rzp1" } = .PENDING ∧
        (32 : ℚ) = 200 * (if exProduct.vendor.vendorType = .LOCAL_MARKET then 10 else 16) / 100 ∧
        ∃ pay ∈ (createOrder exCustomer exReq "B1" "PAY1" (some "rzp1") exDb).db.payments,
          pay.bookingId = "B1" ∧
          pay.totalAmount = 200 ∧
          pay.commissionAmount = 32 ∧
          pay.vendorAmount = 200 - 32 ∧
          pay.commissionAmount + pay.vendorAmount = pay.totalAmount) := by
  have hvt : VendorType.PHARMACY ≠ VendorType.LOCAL_MARKET := by simp
  have hok :
      (createOrder exCustomer exReq "B1" "PAY1" (some "rzp1") exDb).response
        = .ok
          { orderId := "B1", totalAmount := 200, commissionAmount := 32,
            status := .PENDING, paymentStatus := .PENDING,
            paymentMethod := "RAZORPAY", razorpayOrderId := some "rzp1" } := by
    norm_num [hvt, createOrder, createOrderSchemaValid, orderItemSchemaValid,
      findAvailableProducts, validateItems, createOrderSuccess, mkBooking, mkPayment,
      mkPharmacyBooking, setPaymentGatewayId, exCustomer, exReq, exItem, exDb,
      exProduct, exVendor, calculateCommission, calculateVendorAmount,
      COMMISSION_RATES.LOCAL_MARKET, COMMISSION_RATES.DEFAULT]
  refine ⟨hok, fun h => ?_⟩
  simpa using
    createOrder_commission_split exCustomer exReq "B1" "PAY1" (some "rzp1") exDb
      _ exProduct h rfl

/-- `find?` under a predicate that pins the key returns the unique row with
that key when the keys of the list are distinct. -/
theorem find?_eq_some_of_key {α : Type} (f : α → String) (p : α → Bool) :
    ∀ (l : List α) (a : α), a ∈ l → (l.map f).Nodup → p a = true →
      (∀ x, p x = true → f x = f a) → l.find? p = some a := by
  intro l
  induction l with
  | nil => intro a ha _ _ _; cases ha
  | cons x xs ih =>
    intro a ha hN hpa hkey
    rw [List.map_cons, List.nodup_cons] at hN
    by_cases hx : p x = true
    · rw [List.find?_cons_of_pos _ hx]
      rcases List.mem_cons.mp ha with h | hmem
      · rw [h]
      · exfalso
        apply hN.1
        rw [hkey x hx]
        exact List.mem_map_of_mem f hmem
    · rw [List.find?_cons_of_neg _ (by simpa using hx)]
      rcases List.mem_cons.mp ha with h | hmem
      · exact absurd (h ▸ hpa) hx
      · exact ih a hmem hN.2 hpa hkey

/-- Two rows of a key-distinct list with the same key are the same row. -/
theorem eq_of_mem_of_key_eq {α : Type} {f : α → String} {l : List α} {a b : α}
    (hN : (l.map f).Nodup) (ha : a ∈ l) (hb : b ∈ l) (h : f a = f b) : a = b :=
  List.inj_on_of_nodup_map hN ha hb h

/-! ## C2 — the transition table is not enforced by updateOrderStatus -/

/-- C2 (divergence): for a PENDING order owned by the calling vendor, the
transition PENDING → COMPLETED is **accepted** by `updateOrderStatus` — the
order and its lines are set to COMPLETED and the call reports success —
although the repository's own transition table
(`ORDER_STATUS_FLOW` / `isValidOrderStatusTransition`) does not allow it.
The controller only rejects terminal states and never consults the table. -/
theorem updateOrderStatus_ignores_transition_table (user : AuthUser) (db : Db)
    (b : Booking) (hrole : user.role = "VENDOR")
    (hvid : user.vendorId = some b.vendorId) (hmem : b ∈ db.bookings)
    (hN : (db.bookings.map (fun x => x.id)).Nodup) (hst : b.status = .PENDING) :
    isValidOrderStatusTransition b.status .COMPLETED = false ∧
    (updateOrderStatus user b.id .COMPLETED db).response = .ok (b.id, .COMPLETED) ∧
    ∃ b2 ∈ (updateOrderStatus user b.id .COMPLETED db).db.bookings,
      b2.id = b.id ∧ b2.status = .COMPLETED := by
  have hfind : db.bookings.find?
      (fun x => x.id == b.id && user.vendorId == some x.vendorId) = some b := by
    apply find?_eq_some_of_key (fun x => x.id) _ _ b hmem hN
    · simp [hvid]
    · intro x hx
      simp only [Bool.and_eq_true, beq_iff_eq] at hx
      exact hx.1
  have hupd : updateOrderStatus user b.id .COMPLETED db
      = ⟨.ok (b.id, .COMPLETED), applyStatus db b.id .COMPLETED⟩ := by
    simp only [updateOrderStatus]
    rw [if_neg (by simp [hrole, hvid]), if_neg (by simp [updateOrderStatusSchemaValid]),
      hfind]
    simp [hst]
  refine ⟨by rw [hst]; rfl, by rw [hupd], ?_⟩
  rw [hupd]
  refine ⟨_, List.mem_map_of_mem _ hmem, ?_⟩
  simp

/-- Witness for C2: the concrete PENDING order `B1` of vendor `V1`;
the owning vendor's request for COMPLETED succeeds although the table
forbids it. -/
theorem updateOrderStatus_ignores_transition_table_witness :
    isValidOrderStatusTransition exPendingBooking.status .COMPLETED = false ∧
    (updateOrderStatus exVendorUser exPendingBooking.id .COMPLETED exPendingDb).response
      = .ok (exPendingBooking.id, .COMPLETED) ∧
    ∃ b2 ∈ (updateOrderStatus exVendorUser exPendingBooking.id .COMPLETED
        exPendingDb).db.bookings,
      b2.id = exPendingBooking.id ∧ b2.status = .COMPLETED :=
  updateOrderStatus_ignores_transition_table exVendorUser exPendingDb
    exPendingBooking rfl rfl (List.mem_singleton_self _) (by simp [exPendingDb]) rfl

/-! ## C3 — terminal states -/

set_option maxRecDepth 10000 in
/-- C3 (counterexample): a COMPLETED order is **not** frozen against every
reachable operation: a correctly signed `payment.failed` webhook event
naming the order runs to completion and moves it from COMPLETED to
CANCELLED (`processPaymentFailure` checks no status precondition). -/
theorem webhook_failed_escapes_completed :
    (exCompletedDb.bookings.map (fun b => b.status) = [.COMPLETED]) ∧
    ((handleWebhook "whsec" "keysec"
        (hmacHex "whsec" (stringifyPayload exFailedPayload)) exFailedPayload
        exCompletedDb).error = none) ∧
    ((handleWebhook "whsec" "keysec"
        (hmacHex "whsec" (stringifyPayload exFailedPayload)) exFailedPayload
        exCompletedDb).db.bookings.map (fun b => b.status) = [.CANCELLED]) := by
  decide

/-- C3 (amended): COMPLETED and CANCELLED are terminal with respect to
`updateOrderStatus` and `cancelOrder`: every such call on a terminal order
(any requested status, any caller) fails with an error, leaves the database
unchanged, and issues no refund call.  (The payment-failure settlement
handler is exempt: it can still move a COMPLETED order to CANCELLED, see
the counterexample.) -/
theorem terminal_frozen_for_update_and_cancel (userU userC : AuthUser)
    (newStatus : BookingStatus) (db : Db) (b : Booking)
    (hmem : b ∈ db.bookings) (hN : (db.bookings.map (fun x => x.id)).Nodup)
    (hterm : b.status = .COMPLETED ∨ b.status = .CANCELLED) :
    ((∃ e, (updateOrderStatus userU b.id newStatus db).response = .error e) ∧
      (updateOrderStatus userU b.id newStatus db).db = db) ∧
    ((∃ e, (cancelOrder userC b.id db).response = .error e) ∧
      (cancelOrder userC b.id db).db = db ∧
      (cancelOrder userC b.id db).refunds = []) := by
  constructor
  · simp only [updateOrderStatus]
    split
    · exact ⟨⟨_, rfl⟩, rfl⟩
    split
    · exact ⟨⟨_, rfl⟩, rfl⟩
    split
    · exact ⟨⟨_, rfl⟩, rfl⟩
    next ord heq =>
      have hpo := List.find?_some heq
      have hmo := List.mem_of_find?_eq_some heq
      simp only [Bool.and_eq_true, beq_iff_eq] at hpo
      have hob : ord = b := eq_of_mem_of_key_eq hN hmo hmem hpo.1
      rw [if_pos (by rw [hob]; exact hterm)]
      exact ⟨⟨_, rfl⟩, rfl⟩
  · simp only [cancelOrder]
    split
    · exact ⟨⟨_, rfl⟩, rfl, rfl⟩
    split
    · exact ⟨⟨_, rfl⟩, rfl, rfl⟩
    next ord heq =>
      have hpo := List.find?_some heq
      have hmo := List.mem_of_find?_eq_some heq
      simp only [Bool.and_eq_true, beq_iff_eq] at hpo
      have hob : ord = b := eq_of_mem_of_key_eq hN hmo hmem hpo.1
      rcases hterm with hc | hc
      · rw [if_pos (by rw [hob]; exact hc)]
        exact ⟨⟨_, rfl⟩, rfl, rfl⟩
      · rw [if_neg (by rw [hob, hc]; simp), if_pos (by rw [hob]; exact hc)]
        exact ⟨⟨_, rfl⟩, rfl, rfl⟩

/-- Witness for the amended C3 at the concrete COMPLETED order `B1`:
the vendor's update to CONFIRMED and the customer's cancel both fail and
change nothing. -/
theorem terminal_frozen_for_update_and_cancel_witness :
    ((∃ e, (updateOrderStatus exVendorUser
        ({ exPendingBooking with status := .COMPLETED } : Booking).id .CONFIRMED
        exCompletedDb).response = .error e) ∧
      (updateOrderStatus exVendorUser
        ({ exPendingBooking with status := .COMPLETED } : Booking).id .CONFIRMED
        exCompletedDb).db = exCompletedDb) ∧
    ((∃ e, (cancelOrder exCustomer
        ({ exPendingBooking with status := .COMPLETED } : Booking).id
        exCompletedDb).response = .error e) ∧
      (cancelOrder exCustomer
        ({ exPendingBooking with status := .COMPLETED } : Booking).id
        exCompletedDb).db = exCompletedDb ∧
      (cancelOrder exCustomer
        ({ exPendingBooking with status := .COMPLETED } : Booking).id
        exCompletedDb).refunds = []) :=
  terminal_frozen_for_update_and_cancel exVendorUser exCustomer .CONFIRMED
    exCompletedDb { exPendingBooking with status := .COMPLETED }
    (List.mem_singleton_self _) (by simp [exCompletedDb]) (Or.inl rfl)

/-! ## C6 — the settlement handlers do not keep order lines in sync -/

set_option maxRecDepth 10000 in
/-- C6 (divergence): after a correctly signed `payment.failed` webhook on
the PENDING example order, the Booking is CANCELLED but its
`pharmacyBookings` line is still PENDING: the handler's
`prisma.marketBooking.updateMany` targets the dropped `marketBooking` model
and touches no `pharmacyBookings` row, so parent and line statuses diverge. -/
theorem settlement_updates_miss_order_lines :
    ((handleWebhook "whsec" "keysec"
        (hmacHex "whsec" (stringifyPayload exFailedPayload)) exFailedPayload
        exPendingDb).error = none) ∧
    ((handleWebhook "whsec" "keysec"
        (hmacHex "whsec" (stringifyPayload exFailedPayload)) exFailedPayload
        exPendingDb).db.bookings.map (fun b => (b.id, b.status))
      = [("B1", .CANCELLED)]) ∧
    ((handleWebhook "whsec" "keysec"
        (hmacHex "whsec" (stringifyPayload exFailedPayload)) exFailedPayload
        exPendingDb).db.pharmacyBookings.map (fun l => (l.bookingId, l.status))
      = [("B1", .PENDING)]) := by
  decide

/-! ## C8 — `payment.captured` webhooks never settle anything -/

/-- C8 (divergence): for **every** correctly signed `payment.captured`
webhook event, `handleWebhook` changes nothing: `handlePaymentCaptured`
passes an empty `razorpay_signature` to `processPaymentSuccess`, whose
signature verification compares the keyed digest (a 64-character hex
string) against `""` and always fails, so the Payment is never marked
SUCCESS and the Order never advances to CONFIRMED.  The error is swallowed
(`error = none`). -/
theorem handleWebhook_captured_no_op (webhookSecret keySecret : String)
    (payload : WebhookPayload) (db : Db)
    (hevent : payload.event = "payment.captured") :
    handleWebhook webhookSecret keySecret
        (hmacHex webhookSecret (stringifyPayload payload)) payload db
      = ⟨none, db⟩ := by
  simp only [handleWebhook]
  rw [if_neg (by simp), if_pos (by simp [hevent])]
  simp only [handlePaymentCaptured]
  split
  · rfl
  next oid hoid =>
    split
    · rfl
    next booking hb =>
      have hne := hmacHex_ne_empty keySecret
        (payload.payment.order_id ++ "|" ++ payload.payment.id)
      simp [processPaymentSuccess, verifyPaymentSignature, hne]

/-- Witness for C8: the concrete captured event on the PENDING example
order leaves the whole database unchanged. -/
theorem handleWebhook_captured_no_op_witness :
    handleWebhook "whsec" "keysec"
        (hmacHex "whsec" (stringifyPayload exCapturedPayload)) exCapturedPayload
        exPendingDb
      = ⟨none, exPendingDb⟩ :=
  handleWebhook_captured_no_op "whsec" "keysec" exCapturedPayload exPendingDb rfl

/-! ## C7 — refund-on-cancel, exactly once -/

/-- C7: a successful `cancelOrder` issues exactly one refund call — with
amount equal to the Payment's `totalAmount` — when the Payment is SUCCESS,
and zero refund calls when the Payment is absent or in any other status;
and a second `cancelOrder` on the now-CANCELLED order returns the
already-cancelled error, changes nothing and issues no refund call (hence
the same outcome on every further repetition). -/
theorem cancelOrder_refund_once_and_idempotent (user : AuthUser)
    (orderId : String) (db : Db) (s : String × BookingStatus)
    (hok : (cancelOrder user orderId db).response = .ok s) :
    (∀ pay, db.payments.find? (fun p => p.bookingId == orderId) = some pay →
      (cancelOrder user orderId db).refunds
        = if pay.paymentStatus = .SUCCESS
          then [{ paymentId := pay.id, amount := pay.totalAmount,
                  reason := "Customer cancellation" }]
          else []) ∧
    (db.payments.find? (fun p => p.bookingId == orderId) = none →
      (cancelOrder user orderId db).refunds = []) ∧
    cancelOrder user orderId (cancelOrder user orderId db).db
      = ⟨.error .alreadyCancelled, (cancelOrder user orderId db).db, []⟩ := by
  revert hok
  simp only [cancelOrder]
  split
  · intro h; exact absurd h (by simp)
  split
  · intro h; exact absurd h (by simp)
  next ord heq =>
    have hpo := List.find?_some heq
    simp only [Bool.and_eq_true, beq_iff_eq] at hpo
    split
    · intro h; exact absurd h (by simp)
    next hnc =>
      split
      · intro h; exact absurd h (by simp)
      next hncl =>
        intro _
        have hordid : ord.id = orderId := hpo.1
        have hcomp :
            ((fun b : Booking => b.id == orderId && b.userId == user.userId) ∘
              (fun b : Booking => if b.id == orderId
                then { b with status := BookingStatus.CANCELLED } else b))
              = (fun b : Booking => b.id == orderId && b.userId == user.userId) := by
          funext x
          by_cases hid : (x.id == orderId) = true
          · simp [Function.comp, hid]
          · simp [Function.comp, hid]
        refine ⟨?_, ?_, ?_⟩
        · intro pay hpay
          rw [hordid, hpay]
        · intro hpay
          rw [hordid, hpay]
        · simp only [cancelOrder, applyStatus]
          rw [List.find?_map, hcomp, heq]
          simp [hordid]

/-- Witness for C7 at the concrete order `B1` with a SUCCESS Payment of
200: one refund call for 200, and a second cancel fails idempotently. -/
theorem cancelOrder_refund_once_and_idempotent_witness :
    (cancelOrder exCustomer "B1" exSuccessDb).response = .ok ("B1", .CANCELLED) ∧
    (cancelOrder exCustomer "B1" exSuccessDb).refunds
      = [{ paymentId := "PAY1", amount := 200, reason := "Customer cancellation" }] ∧
    cancelOrder exCustomer "B1" (cancelOrder exCustomer "B1" exSuccessDb).db
      = ⟨.error .alreadyCancelled, (cancelOrder exCustomer "B1" exSuccessDb).db, []⟩ := by
  have hok : (cancelOrder exCustomer "B1" exSuccessDb).response
      = .ok ("B1", .CANCELLED) := rfl
  obtain ⟨h1, -, h3⟩ :=
    cancelOrder_refund_once_and_idempotent exCustomer "B1" exSuccessDb _ hok
  refine ⟨hok, ?_, h3⟩
  have h2 := h1 { exPayment with paymentStatus := .SUCCESS } rfl
  simpa [exPayment] using h2

/-! ## C4 / C9 — the total-tolerance gate and gateway-failure tolerance -/

/-- When every catalog validation passes, `createOrder` reduces to the
total-tolerance check followed by the success tail. -/
theorem createOrder_reaches_total_check (user : AuthUser)
    (req : CreateOrderRequest) (nb np : String) (gw : Option String) (db : Db)
    (p0 : Product) (vi : List ValidatedItem) (ct : ℚ)
    (hrole : user.role = "CUSTOMER")
    (hschema : createOrderSchemaValid req = true)
    (hlen : (findAvailableProducts db (req.items.map (fun i => i.productId))).length
      = (req.items.map (fun i => i.productId)).length)
    (hnmv : ¬ 1 < ((findAvailableProducts db (req.items.map (fun i => i.productId))).map
      (fun p => p.vendor.id)).dedup.length)
    (hhead : (findAvailableProducts db (req.items.map (fun i => i.productId))).head?
      = some p0)
    (happr : p0.vendor.status = .APPROVED)
    (hvi : validateItems (findAvailableProducts db (req.items.map (fun i => i.productId)))
      req.items = .ok (vi, ct)) :
    createOrder user req nb np gw db
      = if |ct - req.totalAmount| > 1 / 100
        then ⟨.error .totalAmountMismatch, db⟩
        else createOrderSuccess user req nb np gw db p0.vendor
          (findAvailableProducts db (req.items.map (fun i => i.productId))) vi ct := by
  simp only [createOrder, hhead, hvi]
  rw [if_neg (by simp [hrole]), if_neg (by simp [hschema]), if_neg (by simp [hlen]),
    if_neg hnmv, if_neg (by simp [happr])]

/-- C4: assuming every catalog validation passed, if the computed line-total
sum and the declared total differ by more than 0.01 the call fails with the
total-mismatch error and writes nothing; if they differ by at most 0.01 the
check passes and the order is created. -/
theorem createOrder_total_tolerance (user : AuthUser)
    (req : CreateOrderRequest) (nb np : String) (gw : Option String) (db : Db)
    (p0 : Product) (vi : List ValidatedItem) (ct : ℚ)
    (hrole : user.role = "CUSTOMER")
    (hschema : createOrderSchemaValid req = true)
    (hlen : (findAvailableProducts db (req.items.map (fun i => i.productId))).length
      = (req.items.map (fun i => i.productId)).length)
    (hnmv : ¬ 1 < ((findAvailableProducts db (req.items.map (fun i => i.productId))).map
      (fun p => p.vendor.id)).dedup.length)
    (hhead : (findAvailableProducts db (req.items.map (fun i => i.productId))).head?
      = some p0)
    (happr : p0.vendor.status = .APPROVED)
    (hvi : validateItems (findAvailableProducts db (req.items.map (fun i => i.productId)))
      req.items = .ok (vi, ct)) :
    (|ct - req.totalAmount| > 1 / 100 →
      createOrder user req nb np gw db = ⟨.error .totalAmountMismatch, db⟩) ∧
    (|ct - req.totalAmount| ≤ 1 / 100 →
      ∃ resp, (createOrder user req nb np gw db).response = .ok resp) := by
  have h := createOrder_reaches_total_check user req nb np gw db p0 vi ct
    hrole hschema hlen hnmv hhead happr hvi
  constructor
  · intro hgt
    rw [h, if_pos hgt]
  · intro hle
    rw [h, if_neg (not_lt.mpr hle)]
    exact ⟨_, createOrderSuccess_response user req nb np gw db p0.vendor _ vi ct⟩

/-- Witness for C4 at the spec's second end-to-end example: same item,
declared total 199, computed total 200 → the call is rejected with the
total-mismatch error and the database is unchanged. -/
theorem createOrder_total_tolerance_witness :
    ((|(200 : ℚ) - exReq199.totalAmount| > 1 / 100 →
      createOrder exCustomer exReq199 "B1" "PAY1" none exDb
        = ⟨.error .totalAmountMismatch, exDb⟩) ∧
     (|(200 : ℚ) - exReq199.totalAmount| ≤ 1 / 100 →
      ∃ resp, (createOrder exCustomer exReq199 "B1" "PAY1" none exDb).response
        = .ok resp)) ∧
    createOrder exCustomer exReq199 "B1" "PAY1" none exDb
      = ⟨.error .totalAmountMismatch, exDb⟩ := by
  have h := createOrder_total_tolerance exCustomer exReq199 "B1" "PAY1" none exDb
    exProduct [exValidatedItem] 200 rfl
    (by norm_num [createOrderSchemaValid, orderItemSchemaValid, exReq199, exReq, exItem])
    rfl (by decide) rfl rfl
    (by norm_num [validateItems, findAvailableProducts, exReq199, exReq, exItem,
      exDb, exProduct, exValidatedItem])
  exact ⟨h, h.1 (by norm_num [exReq199, exReq])⟩

/-- C9: when every validation passes, the declared total is within
tolerance, and the post-commit gateway call fails (`gatewayResult = none`),
`createOrder` still returns the 201 success response: the order is PENDING,
the Booking/line/Payment rows all exist, and neither the response nor the
Payment carries a gateway order id. -/
theorem createOrder_gateway_failure_nonfatal (user : AuthUser)
    (req : CreateOrderRequest) (nb np : String) (db : Db)
    (p0 : Product) (vi : List ValidatedItem) (ct : ℚ)
    (hrole : user.role = "CUSTOMER")
    (hschema : createOrderSchemaValid req = true)
    (hlen : (findAvailableProducts db (req.items.map (fun i => i.productId))).length
      = (req.items.map (fun i => i.productId)).length)
    (hnmv : ¬ 1 < ((findAvailableProducts db (req.items.map (fun i => i.productId))).map
      (fun p => p.vendor.id)).dedup.length)
    (hhead : (findAvailableProducts db (req.items.map (fun i => i.productId))).head?
      = some p0)
    (happr : p0.vendor.status = .APPROVED)
    (hvi : validateItems (findAvailableProducts db (req.items.map (fun i => i.productId)))
      req.items = .ok (vi, ct))
    (htol : ¬ |ct - req.totalAmount| > 1 / 100) :
    createOrder user req nb np none db
      = ⟨.ok
          { orderId := nb
            totalAmount := ct
            commissionAmount := calculateCommission ct p0.vendor.vendorType
            status := .PENDING
            paymentStatus := .PENDING
            paymentMethod := req.paymentMethod.getD "RAZORPAY"
            razorpayOrderId := none },
         { db with
           bookings := db.bookings
             ++ [mkBooking user nb p0.vendor.id ct
                  (calculateCommission ct p0.vendor.vendorType)]
           pharmacyBookings := db.pharmacyBookings
             ++ vi.map (mkPharmacyBooking
                  (findAvailableProducts db (req.items.map (fun i => i.productId))) nb)
           payments := db.payments
             ++ [mkPayment req np nb p0.vendor.id ct
                  (calculateCommission ct p0.vendor.vendorType)
                  (calculateVendorAmount ct
                    (calculateCommission ct p0.vendor.vendorType))] }⟩ := by
  rw [createOrder_reaches_total_check user req nb np none db p0 vi ct
    hrole hschema hlen hnmv hhead happr hvi, if_neg htol]
  simp [createOrderSuccess, mkBooking, mkPayment]

/-- Witness for C9 at the end-to-end example with a failing gateway call:
the response is still a 201 success in status PENDING with no gateway id,
and all rows exist. -/
theorem createOrder_gateway_failure_nonfatal_witness :
    createOrder exCustomer exReq "B1" "PAY1" none exDb
      = ⟨.ok
          { orderId := "B1"
            totalAmount := 200
            commissionAmount := calculateCommission 200 exProduct.vendor.vendorType
            status := .PENDING
            paymentStatus := .PENDING
            paymentMethod := exReq.paymentMethod.getD "RAZORPAY"
            razorpayOrderId := none },
         { exDb with
           bookings := exDb.bookings
             ++ [mkBooking exCustomer "B1" exProduct.vendor.id 200
                  (calculateCommission 200 exProduct.vendor.vendorType)]
           pharmacyBookings := exDb.pharmacyBookings
             ++ [exValidatedItem].map (mkPharmacyBooking
                  (findAvailableProducts exDb (exReq.items.map (fun i => i.productId))) "B1")
           payments := exDb.payments
             ++ [mkPayment exReq "PAY1" "B1" exProduct.vendor.id 200
                  (calculateCommission 200 exProduct.vendor.vendorType)
                  (calculateVendorAmount 200
                    (calculateCommission 200 exProduct.vendor.vendorType))] }⟩ :=
  createOrder_gateway_failure_nonfatal exCustomer exReq "B1" "PAY1" exDb
    exProduct [exValidatedItem] 200 rfl
    (by norm_num [createOrderSchemaValid, orderItemSchemaValid, exReq, exItem])
    rfl (by decide) rfl rfl
    (by norm_num [validateItems, findAvailableProducts, exReq, exItem,
      exDb, exProduct, exValidatedItem])
    (by norm_num [exReq])

/-! ## C5 — catalog validation is all-or-nothing -/

/-- The products returned by the availability query have pairwise distinct
ids whenever the product table does. -/
theorem findAvailableProducts_id_nodup (db : Db) (ids : List String)
    (hN : (db.products.map (fun p => p.id)).Nodup) :
    ((findAvailableProducts db ids).map (fun p => p.id)).Nodup :=
  List.Nodup.sublist (List.Sublist.map _ (List.filter_sublist _)) hN

/-- If the per-item validation loop succeeds, every item that resolves to a
product satisfies the minimum-quantity and price-range constraints. -/
theorem validateItems_ok_sound (products : List Product) :
    ∀ (items : List OrderItem) (out : List ValidatedItem × ℚ),
      validateItems products items = .ok out →
      ∀ item ∈ items, ∀ q, products.find? (fun p => p.id == item.productId) = some q →
        q.minOrderQuantity ≤ item.quantity ∧ q.priceMin ≤ item.unitPrice ∧
          item.unitPrice ≤ q.priceMax := by
  intro items
  induction items with
  | nil => intro out _ item hitem; cases hitem
  | cons it rest ih =>
    intro out h item hitem q hq
    simp only [validateItems] at h
    split at h
    next hfind =>
      rcases List.mem_cons.mp hitem with hcase | hmem
      · rw [hcase] at hq
        rw [hfind] at hq
        exact Option.noConfusion hq
      · exact ih out h item hmem q hq
    next product hfind =>
      split at h
      next hqty => simp at h
      next hqty =>
        split at h
        next hprice => simp at h
        next hprice =>
          simp only [Bool.or_eq_true, decide_eq_true_eq, not_or] at hprice
          rcases List.mem_cons.mp hitem with hcase | hmem
          · subst hcase
            rw [hfind] at hq
            cases Option.some.inj hq
            exact ⟨Nat.le_of_not_lt hqty, le_of_not_lt hprice.1,
              le_of_not_lt hprice.2⟩
          · split at h
            next hrest => simp at h
            next vs tot hrest => exact ih (vs, tot) hrest item hmem q hq

/-- C5: catalog validation is all-or-nothing — whenever the resolved
products span more than one vendor, or the vendor is not APPROVED, or some
line's quantity is below the product's minimum order quantity, or some
line's unit price lies outside `[priceMin, priceMax]`, `createOrder`
rejects the whole request with an error and writes no Booking, line, or
Payment row. -/
theorem createOrder_validation_all_or_nothing (user : AuthUser)
    (req : CreateOrderRequest) (nb np : String) (gw : Option String) (db : Db)
    (hN : (db.products.map (fun p => p.id)).Nodup)
    (hviol :
      1 < ((findAvailableProducts db (req.items.map (fun i => i.productId))).map
        (fun p => p.vendor.id)).dedup.length
      ∨ (∃ p0, (findAvailableProducts db (req.items.map (fun i => i.productId))).head?
          = some p0 ∧ p0.vendor.status ≠ .APPROVED)
      ∨ (∃ item ∈ req.items,
          ∃ p ∈ findAvailableProducts db (req.items.map (fun i => i.productId)),
            p.id = item.productId ∧ item.quantity < p.minOrderQuantity)
      ∨ (∃ item ∈ req.items,
          ∃ p ∈ findAvailableProducts db (req.items.map (fun i => i.productId)),
            p.id = item.productId ∧
              (item.unitPrice < p.priceMin ∨ p.priceMax < item.unitPrice))) :
    (∃ e, (createOrder user req nb np gw db).response = .error e) ∧
    (createOrder user req nb np gw db).db = db := by
  have herr : ∃ e, (createOrder user req nb np gw db).response = .error e := by
    rcases hres : (createOrder user req nb np gw db).response with e | resp
    · exact ⟨e, rfl⟩
    · exfalso
      obtain ⟨-, -, p0, vi, ct, hp0, -, hnmv, happr, hvi, -, -⟩ :=
        createOrder_ok_inv user req nb np gw db resp hres
      have hNp := findAvailableProducts_id_nodup db
        (req.items.map (fun i => i.productId)) hN
      rcases hviol with hmv | ⟨q0, hq0, hq0st⟩ | ⟨item, hitem, p, hp, hpid, hqty⟩
        | ⟨item, hitem, p, hp, hpid, hpr⟩
      · exact hnmv hmv
      · rw [hp0] at hq0
        cases Option.some.inj hq0
        exact hq0st happr
      · have hfind : (findAvailableProducts db (req.items.map
            (fun i => i.productId))).find? (fun x => x.id == item.productId)
            = some p := by
          apply find?_eq_some_of_key (fun x => x.id) _ _ p hp hNp (by simp [hpid])
          intro x hx
          simp only [beq_iff_eq] at hx
          rw [hx, hpid]
        have hsound := validateItems_ok_sound _ _ _ hvi item hitem p hfind
        omega
      · have hfind : (findAvailableProducts db (req.items.map
            (fun i => i.productId))).find? (fun x => x.id == item.productId)
            = some p := by
          apply find?_eq_some_of_key (fun x => x.id) _ _ p hp hNp (by simp [hpid])
          intro x hx
          simp only [beq_iff_eq] at hx
          rw [hx, hpid]
        have hsound := validateItems_ok_sound _ _ _ hvi item hitem p hfind
        rcases hpr with hlo | hhi
        · exact absurd hsound.2.1 (not_le.mpr hlo)
        · exact absurd hsound.2.2 (not_le.mpr hhi)
  exact ⟨herr, createOrder_error_db user req nb np gw db herr⟩

/-- Witness for C5: a request whose unit price 10 is below `exProduct`'s
minimum 50 is rejected outright and the database is unchanged. -/
theorem createOrder_validation_all_or_nothing_witness :
    (∃ e, (createOrder exCustomer exBadPriceReq "B1" "PAY1" none exDb).response
      = .error e) ∧
    (createOrder exCustomer exBadPriceReq "B1" "PAY1" none exDb).db = exDb :=
  createOrder_validation_all_or_nothing exCustomer exBadPriceReq "B1" "PAY1"
    none exDb (by decide)
    (Or.inr (Or.inr (Or.inr
      ⟨{ exItem with unitPrice := 10 }, List.mem_singleton_self _,
       exProduct, by decide, rfl, Or.inl (by norm_num [exProduct, exItem])⟩)))

/-! ## C10 — duplicate product ids always abort the order -/

/-- C10: a request listing the same `productId` on two different lines
(whatever else is true of the catalog) is always rejected with the
products-not-available error and writes nothing: the availability query
returns each product once, so the resolved count can never equal the
requested count. -/
theorem createOrder_duplicate_product_rejected (user : AuthUser)
    (req : CreateOrderRequest) (nb np : String) (gw : Option String) (db : Db)
    (hrole : user.role = "CUSTOMER")
    (hschema : createOrderSchemaValid req = true)
    (hN : (db.products.map (fun p => p.id)).Nodup)
    (hdup : ¬ (req.items.map (fun i => i.productId)).Nodup) :
    createOrder user req nb np gw db = ⟨.error .productsNotAvailable, db⟩ := by
  have hlt : (findAvailableProducts db (req.items.map (fun i => i.productId))).length
      < (req.items.map (fun i => i.productId)).length := by
    have h1 := findAvailableProducts_id_nodup db
      (req.items.map (fun i => i.productId)) hN
    have hsub : ((findAvailableProducts db (req.items.map
        (fun i => i.productId))).map (fun p => p.id))
        ⊆ (req.items.map (fun i => i.productId)).dedup := by
      intro x hx
      rw [List.mem_dedup]
      obtain ⟨p, hp, hpx⟩ := List.mem_map.mp hx
      have hf := List.of_mem_filter hp
      simp only [Bool.and_eq_true] at hf
      rw [← hpx]
      simpa using hf.1
    have hle : (findAvailableProducts db (req.items.map
        (fun i => i.productId))).length
        ≤ (req.items.map (fun i => i.productId)).dedup.length := by
      have := (h1.subperm hsub).length_le
      simpa using this
    have hlt2 : (req.items.map (fun i => i.productId)).dedup.length
        < (req.items.map (fun i => i.productId)).length := by
      rcases Nat.lt_or_ge (req.items.map (fun i => i.productId)).dedup.length
        (req.items.map (fun i => i.productId)).length with h | h
      · exact h
      · exfalso
        have hsubl := List.dedup_sublist (req.items.map (fun i => i.productId))
        have hlen := Nat.le_antisymm hsubl.length_le h
        have heq := hsubl.eq_of_length hlen
        exact hdup (heq ▸ List.nodup_dedup _)
    omega
  simp only [createOrder]
  rw [if_neg (by simp [hrole]), if_neg (by simp [hschema]),
    if_pos (Nat.ne_of_lt hlt)]

/-- Witness for C10: two lines of the available, in-range product `P1`
(each line individually valid) are rejected with the products-not-available
error and nothing is written. -/
theorem createOrder_duplicate_product_rejected_witness :
    createOrder exCustomer exDupReq "B1" "PAY1" none exDb
      = ⟨.error .productsNotAvailable, exDb⟩ :=
  createOrder_duplicate_product_rejected exCustomer exDupReq "B1" "PAY1" none
    exDb rfl
    (by norm_num [createOrderSchemaValid, orderItemSchemaValid, exDupReq, exItem])
    (by decide) (by decide)

end Flickxir
